import Mathlib

/-!
Verification of the AI Personal Nutritionist app (`src/app.py`)

Shallow embedding of the meal-plan workflow: session state, the JSON
history store, the prompt builder, the completion-client wrapper and the
session transitions (`login`, `logout`, `save_meal_plan`, the history
page plan-selection action).

Python dictionaries keyed by strings are embedded as insertion-ordered
association lists (`List (String × α)`); assignment `d[k] = v` is
`upsert`, which overwrites in place when the key exists and appends
otherwise, exactly as a Python dict does.  External effects (the file
system, the clock, `uuid.uuid4`, the Gemini network call) are passed in
as explicit values: the file is `Storage`, the generated id and formatted
clock reading are arguments, and the network call is a function
`String → Except String String` (`.error` models a raised exception).
-/

set_option autoImplicit false

namespace Nutritionist

/-- Insertion-ordered string-keyed map, the embedding of a Python dict. -/
abbrev SMap (α : Type) : Type := List (String × α)

/-- Lookup in a string-keyed map (`k in d` / `d[k]`). -/
def SMap.find? {α : Type} : SMap α → String → Option α
  | [], _ => none
  | (k, v) :: rest, key => if k = key then some v else SMap.find? rest key

/-- Python dict assignment `d[key] = v`: overwrite in place if the key is
present, append otherwise. -/
def SMap.upsert {α : Type} : SMap α → String → α → SMap α
  | [], key, v => [(key, v)]
  | (k, w) :: rest, key, v =>
      if k = key then (key, v) :: rest else (k, w) :: SMap.upsert rest key v

/-- The keys of the map, in order. -/
def SMap.keys {α : Type} (m : SMap α) : List String := m.map Prod.fst

/-- The `preferences` dict: two checkbox flags and the free-text field
(`render_meal_planner`, lines 206–210). -/
structure Preferences where
  gluten_free : Bool
  dairy_free : Bool
  additional_info : String
  deriving DecidableEq, Repr

/-- A saved plan record `{timestamp, preferences, meal_plan}`
(`save_meal_plan`, lines 128–132). -/
structure PlanRecord where
  timestamp : String
  preferences : Preferences
  meal_plan : String
  deriving DecidableEq, Repr

/-- The `st.session_state.current_plan` value: either the unsaved dict
`{meal_plan, preferences}` built in `render_meal_planner` (no timestamp)
or a full saved record picked in `render_history_page`.  The optional
`timestamp` covers both shapes. -/
structure CurrentPlan where
  timestamp : Option String
  preferences : Preferences
  meal_plan : String
  deriving DecidableEq, Repr

/-- View a stored record as the value assigned to
`st.session_state.current_plan` by the history page. -/
def PlanRecord.toCurrentPlan (r : PlanRecord) : CurrentPlan :=
  ⟨some r.timestamp, r.preferences, r.meal_plan⟩

/-- History of one user: plan id → record. -/
abbrev UserHistory : Type := SMap PlanRecord

/-- The full history: username → user history. -/
abbrev History : Type := SMap UserHistory

/-- The four screens routed on `st.session_state.current_view`. -/
inductive View where
  | login
  | meal_planner
  | history
  | view_plan
  deriving DecidableEq, Repr

/-- The `st.session_state` fields the app initialises (lines 12–21). -/
structure SessionState where
  authenticated : Bool
  username : Option String
  history : History
  current_view : View
  current_plan : Option CurrentPlan
  deriving DecidableEq, Repr

/-- The initial session state (lines 12–21). -/
def initialState : SessionState :=
  { authenticated := false
    username := none
    history := []
    current_view := View.login
    current_plan := none }

/-- Hard-coded credential table `USERS` (lines 27–30). -/
def USERS : SMap String := [("Zach", "ZML"), ("Mal", "MMM")]

/-! JSON values and the history file.

`json.dump` / `json.load` are embedded at the level of JSON trees: a
`Json` value is what a successful `json.load` returns.  The file on disk
(`Storage`) is absent (`none`), present but unparseable
(`some (.error e)`, modelling the exception `json.load` raises on
malformed text), or present and parseable (`some (.ok j)`). -/

/-- JSON trees, restricted to the constructors the history file uses. -/
inductive Json where
  | str (s : String)
  | bool (b : Bool)
  | obj (fields : List (String × Json))

/-- The persistent history file. -/
abbrev Storage : Type := Option (Except String Json)

/-- Serialize a `preferences` dict. -/
def encodePrefs (p : Preferences) : Json :=
  Json.obj [("gluten_free", Json.bool p.gluten_free),
            ("dairy_free", Json.bool p.dairy_free),
            ("additional_info", Json.str p.additional_info)]

/-- Serialize one plan record. -/
def encodeRecord (r : PlanRecord) : Json :=
  Json.obj [("timestamp", Json.str r.timestamp),
            ("preferences", encodePrefs r.preferences),
            ("meal_plan", Json.str r.meal_plan)]

/-- Serialize the history of one user. -/
def encodeUserHistory (h : UserHistory) : Json :=
  Json.obj (h.map fun kv => (kv.1, encodeRecord kv.2))

/-- Serialize the full history, the document `json.dump` writes. -/
def encodeHistory (h : History) : Json :=
  Json.obj (h.map fun kv => (kv.1, encodeUserHistory kv.2))

/-- Parse a `preferences` dict back. -/
def decodePrefs : Json → Option Preferences
  | Json.obj [("gluten_free", Json.bool g),
              ("dairy_free", Json.bool d),
              ("additional_info", Json.str a)] => some ⟨g, d, a⟩
  | _ => none

/-- Parse one plan record back. -/
def decodeRecord : Json → Option PlanRecord
  | Json.obj [("timestamp", Json.str ts),
              ("preferences", p),
              ("meal_plan", Json.str mp)] =>
      (decodePrefs p).map fun pr => ⟨ts, pr, mp⟩
  | _ => none

/-- Parse the fields of the history object of one user. -/
def decodeUserFields : List (String × Json) → Option UserHistory
  | [] => some []
  | (k, v) :: rest =>
      match decodeRecord v, decodeUserFields rest with
      | some r, some h => some ((k, r) :: h)
      | _, _ => none

/-- Parse the history object of one user. -/
def decodeUserHistory : Json → Option UserHistory
  | Json.obj fs => decodeUserFields fs
  | _ => none

/-- Parse the fields of the top-level history object. -/
def decodeHistoryFields : List (String × Json) → Option History
  | [] => some []
  | (k, v) :: rest =>
      match decodeUserHistory v, decodeHistoryFields rest with
      | some h, some hs => some ((k, h) :: hs)
      | _, _ => none

/-- Parse the full history document. -/
def decodeHistory : Json → Option History
  | Json.obj fs => decodeHistoryFields fs
  | _ => none

/-- Embedding of `load_history` (lines 49–57): absent file → `{}`; unparseable file →
the caught exception is reported via `st.error` and `{}` is returned; a
parseable file is returned as the history.  The result pairs the loaded
history with the list of error messages shown.  (A parseable file whose
JSON does not decode to the history shape cannot be produced by
`save_history`; it is mapped to `{}` here.) -/
def load_history (disk : Storage) : History × List String :=
  match disk with
  | none => ([], [])
  | some (Except.error e) => ([], ["Error loading history: " ++ e])
  | some (Except.ok j) =>
      match decodeHistory j with
      | some h => (h, [])
      | none => ([], [])

/-- Embedding of `save_history` (lines 60–65): full-document overwrite.
`writeError` models the file system: `none` when the file open and
`json.dump` succeed, `some e` when they raise the exception `e`, which
is caught, reported via `st.error`, and leaves the file as it was. -/
def save_history (writeError : Option String) (history : History)
    (disk : Storage) : Storage × List String :=
  match writeError with
  | none => (some (Except.ok (encodeHistory history)), [])
  | some e => (disk, ["Error saving history: " ++ e])

/-! The clock and `strftime`. -/

/-- A local clock reading: the fields `strftime("%Y-%m-%d %H:%M:%S")`
reads. -/
structure DateTime where
  year : Nat
  month : Nat
  day : Nat
  hour : Nat
  minute : Nat
  second : Nat
  deriving DecidableEq, Repr

/-- Zero-padding to two digits, the `%m` / `%d` / `%H` / `%M` / `%S`
directives. -/
def pad2 (n : Nat) : String :=
  if n < 10 then "0" ++ toString n else toString n

/-- Embedding of `datetime.now().strftime("%Y-%m-%d %H:%M:%S")`
(line 126).  `%Y` prints the year unpadded for the four-digit years a
real clock produces. -/
def strftimeTimestamp (dt : DateTime) : String :=
  toString dt.year ++ "-" ++ pad2 dt.month ++ "-" ++ pad2 dt.day ++ " " ++
    pad2 dt.hour ++ ":" ++ pad2 dt.minute ++ ":" ++ pad2 dt.second

/-- Decidable check that a string is shaped exactly
`YYYY-MM-DD HH:MM:SS`: nineteen characters, decimal digits in the date
and time positions and the fixed separators in between. -/
def isTimestampShape (s : String) : Bool :=
  match s.toList with
  | [y1, y2, y3, y4, h1, m1, m2, h2, d1, d2, sp, hh1, hh2, c1, mi1, mi2, c2, s1, s2] =>
      ([y1, y2, y3, y4, m1, m2, d1, d2, hh1, hh2, mi1, mi2, s1, s2].all Char.isDigit)
        && h1 = '-' && h2 = '-' && sp = ' ' && c1 = ':' && c2 = ':'
  | _ => false

/-! The session transitions. -/

/-- Embedding of `login` (lines 105–112): on a credential match, set the
authenticated flag, the username and the meal-planner view and replace
the in-memory history with the loaded file; otherwise leave the state
untouched.  Returns the new state and the boolean result. -/
def login (username password : String) (disk : Storage) (s : SessionState) :
    SessionState × Bool :=
  if SMap.find? USERS username = some password then
    ({ s with authenticated := true
              username := some username
              current_view := View.meal_planner
              history := (load_history disk).1 }, true)
  else (s, false)

/-- Embedding of `logout` (lines 115–118): the code resets exactly
`authenticated`, `username` and `current_view` — it does not touch
`history` or `current_plan`. -/
def logout (s : SessionState) : SessionState :=
  { s with authenticated := false
           username := none
           current_view := View.login }

/-- Embedding of `save_meal_plan` (lines 121–135).  The fresh
`uuid.uuid4()` string and the `datetime.now()` reading are passed in;
`writeError` models the file system for the inner `save_history` call.
`username` is `None` only on unauthenticated states, from which the save
button is unreachable; `getD` keys that impossible case arbitrarily.
Returns the new session state, the new file contents, the error messages
of `save_history`, and the returned plan id. -/
def save_meal_plan (plan_id : String) (now : DateTime)
    (writeError : Option String) (meal_plan : String)
    (preferences : Preferences)
    (disk : Storage) (s : SessionState) :
    SessionState × Storage × List String × String :=
  let uname := s.username.getD ""
  let hist0 := if (SMap.find? s.history uname).isSome then s.history
               else SMap.upsert s.history uname []
  let record : PlanRecord := ⟨strftimeTimestamp now, preferences, meal_plan⟩
  let userHist := (SMap.find? hist0 uname).getD []
  let hist1 := SMap.upsert hist0 uname (SMap.upsert userHist plan_id record)
  let saved := save_history writeError hist1 disk
  ({ s with history := hist1 }, saved.1, saved.2, plan_id)

/-- The save action of `render_meal_planner` (lines 219–227): the save
button exists only while a current plan is displayed; pressing it calls
`save_meal_plan` on the fields of the current plan.  With no current
plan nothing happens and no id is produced. -/
def save_current_plan (plan_id : String) (now : DateTime)
    (writeError : Option String) (disk : Storage) (s : SessionState) :
    SessionState × Storage × List String × Option String :=
  match s.current_plan with
  | none => (s, disk, [], none)
  | some cp =>
      let r := save_meal_plan plan_id now writeError cp.meal_plan
        cp.preferences disk s
      (r.1, r.2.1, r.2.2.1, some r.2.2.2)

/-- The View action of `render_history_page` (lines 230–276): a View
button exists only for plan ids present in the history of the logged-in
user; pressing the one for `plan_id` stores that record as the current
plan and switches to the view-plan screen.  For an id with no button
(absent from the user history, or no user history at all) nothing
happens. -/
def select_plan (plan_id : String) (s : SessionState) : SessionState :=
  match s.username with
  | none => s
  | some uname =>
      match SMap.find? s.history uname with
      | none => s
      | some userHist =>
          match SMap.find? userHist plan_id with
          | none => s
          | some record =>
              { s with current_plan := some record.toCurrentPlan
                       current_view := View.view_plan }

/-! The prompt builder and the completion client. -/

/-- The dietary-constraints phrase (lines 74–80): the flagged
restrictions joined with a comma, or the fixed no-restrictions phrase
when the list is empty. -/
def constraints_text (gluten_free dairy_free : Bool) : String :=
  let dietary_constraints :=
    (if gluten_free then ["gluten-free"] else []) ++
    (if dairy_free then ["dairy-free"] else [])
  if dietary_constraints.isEmpty then "No specific dietary restrictions"
  else String.intercalate ", " dietary_constraints

/-- Text of the prompt template before the constraints phrase. -/
def promptHead : String :=
  "\n        Act as a professional nutritionist. Create a personalized meal plan with the following considerations:\n        \n        Dietary Restrictions: "

/-- Text of the prompt template between the constraints phrase and the
free-text field. -/
def promptMid : String := "\n        Additional Information: "

/-- Text of the prompt template after the free-text field. -/
def promptTail : String :=
  "\n        \n        Please provide a structured meal plan that includes:\n        1. Breakfast options (3 suggestions)\n        2. Lunch options (3 suggestions)\n        3. Dinner options (3 suggestions)\n        4. Snack options (3 suggestions)\n        5. Nutritional insights about this plan\n        6. Customized recommendations based on the provided information\n        \n        Format the response in markdown.\n        "

/-- The f-string prompt of `generate_meal_plan` (lines 82–97). -/
def build_prompt (gluten_free dairy_free : Bool) (additional_info : String) :
    String :=
  promptHead ++ constraints_text gluten_free dairy_free ++ promptMid ++
    additional_info ++ promptTail

/-- Python truthiness of the `API_KEY` value (line 37, `if not API_KEY`):
`None` and the empty string are falsy. -/
def isTruthyKey : Option String → Bool
  | none => false
  | some k => decide (k ≠ "")

/-- Embedding of `configure_gemini` (lines 36–46).  `api_key` is the
optional secret; `cfg` is the outcome of `genai.configure`, whose
exception is caught and reported.  Returns the boolean result and the
error messages shown. -/
def configure_gemini (api_key : Option String) (cfg : Except String Unit) :
    Bool × List String :=
  if isTruthyKey api_key then
    match cfg with
    | Except.ok _ => (true, [])
    | Except.error e => (false, ["Error configuring Gemini API: " ++ e])
  else (false, ["Please set your Gemini API key in Streamlit secrets."])

/-- Embedding of `generate_meal_plan` (lines 68–102).  The external
service call `generate_content` (line 99) is the function `call`, whose
`.error e` outcome is a raised exception with message `e`, caught by the
surrounding `try`; the `GenerativeModel` constructor (line 73) performs
no request and is assumed not to raise.  Returns the result string and
the number of times the external service was called. -/
def generate_meal_plan (api_key : Option String) (cfg : Except String Unit)
    (call : String → Except String String)
    (gluten_free dairy_free : Bool) (additional_info : String) :
    String × Nat :=
  if (configure_gemini api_key cfg).1 then
    match call (build_prompt gluten_free dairy_free additional_info) with
    | Except.ok text => (text, 1)
    | Except.error e => ("Error generating meal plan: " ++ e, 1)
  else ("Error: Unable to configure Gemini API", 0)

/-! Lemmas about `SMap`. -/

theorem SMap.find?_upsert_self {α : Type} (m : SMap α) (k : String) (v : α) :
    SMap.find? (SMap.upsert m k v) k = some v := by
  induction m with
  | nil => simp [SMap.upsert, SMap.find?]
  | cons kv rest ih =>
      obtain ⟨k0, v0⟩ := kv
      by_cases h : k0 = k <;> simp [SMap.upsert, SMap.find?, h, ih]

theorem SMap.keys_nil {α : Type} : SMap.keys ([] : SMap α) = [] := rfl

theorem SMap.keys_cons {α : Type} (k : String) (v : α) (m : SMap α) :
    SMap.keys ((k, v) :: m) = k :: m.keys := rfl

theorem SMap.find?_upsert_ne {α : Type} (m : SMap α) (k q : String) (v : α)
    (h : q ≠ k) : SMap.find? (SMap.upsert m k v) q = SMap.find? m q := by
  induction m with
  | nil => simp [SMap.upsert, SMap.find?, Ne.symm h]
  | cons kv rest ih =>
      obtain ⟨k0, v0⟩ := kv
      by_cases h0 : k0 = k
      · subst h0
        simp [SMap.upsert, SMap.find?, Ne.symm h]
      · simp [SMap.upsert, SMap.find?, h0, ih]

theorem SMap.find?_isSome_iff_mem {α : Type} (m : SMap α) (k : String) :
    (SMap.find? m k).isSome ↔ k ∈ m.keys := by
  induction m with
  | nil => simp [SMap.find?, SMap.keys_nil]
  | cons kv rest ih =>
      obtain ⟨k0, v0⟩ := kv
      by_cases h : k0 = k
      · subst h
        simp [SMap.find?, SMap.keys_cons]
      · simp [SMap.find?, SMap.keys_cons, h, ih, Ne.symm h]

theorem SMap.keys_upsert {α : Type} (m : SMap α) (k : String) (v : α) :
    (SMap.upsert m k v).keys =
      if (SMap.find? m k).isSome then m.keys else m.keys ++ [k] := by
  induction m with
  | nil => simp [SMap.upsert, SMap.find?, SMap.keys_nil, SMap.keys_cons]
  | cons kv rest ih =>
      obtain ⟨k0, v0⟩ := kv
      by_cases h : k0 = k
      · subst h
        simp [SMap.upsert, SMap.find?, SMap.keys_cons]
      · simp only [SMap.upsert, SMap.find?, SMap.keys_cons, h, if_false, ih]
        split <;> simp

theorem SMap.keys_nodup_upsert {α : Type} (m : SMap α) (k : String) (v : α)
    (h : m.keys.Nodup) : (SMap.upsert m k v).keys.Nodup := by
  rw [SMap.keys_upsert]
  split
  · exact h
  · next hfind =>
      have : k ∉ m.keys := fun hk =>
        hfind (((SMap.find?_isSome_iff_mem m k).mpr hk))
      simp [List.nodup_append, h, this]

/-! Lemmas about the JSON codec: decoding inverts encoding. -/

theorem decodePrefs_encodePrefs (p : Preferences) :
    decodePrefs (encodePrefs p) = some p := rfl

theorem decodeRecord_encodeRecord (r : PlanRecord) :
    decodeRecord (encodeRecord r) = some r := rfl

theorem decodeUserFields_encode (h : UserHistory) :
    decodeUserFields (h.map fun kv => (kv.1, encodeRecord kv.2)) = some h := by
  induction h with
  | nil => rfl
  | cons kv rest ih =>
      obtain ⟨k, r⟩ := kv
      simp [decodeUserFields, decodeRecord_encodeRecord, ih]

theorem decodeUserHistory_encodeUserHistory (h : UserHistory) :
    decodeUserHistory (encodeUserHistory h) = some h := by
  simp [encodeUserHistory, decodeUserHistory, decodeUserFields_encode]

theorem decodeHistoryFields_encode (h : History) :
    decodeHistoryFields (h.map fun kv => (kv.1, encodeUserHistory kv.2)) =
      some h := by
  induction h with
  | nil => rfl
  | cons kv rest ih =>
      obtain ⟨k, uh⟩ := kv
      simp [decodeHistoryFields, decodeUserHistory_encodeUserHistory, ih]

theorem decodeHistory_encodeHistory (h : History) :
    decodeHistory (encodeHistory h) = some h := by
  simp [encodeHistory, decodeHistory, decodeHistoryFields_encode]

/-! Lemmas about decimal printing, for the timestamp shape. -/

theorem string_toList_append (a b : String) :
    (a ++ b).toList = a.toList ++ b.toList := by
  simp [String.toList]

theorem toString_nat_eq_repr (n : Nat) : toString n = Nat.repr n := rfl

theorem toDigitsCore_step (fuel n : Nat) (ds : List Char) (h : n / 10 ≠ 0) :
    Nat.toDigitsCore 10 (fuel + 1) n ds =
      Nat.toDigitsCore 10 fuel (n / 10) (Nat.digitChar (n % 10) :: ds) := by
  simp [Nat.toDigitsCore, h]

theorem toDigitsCore_stop (fuel n : Nat) (ds : List Char) (h : n / 10 = 0) :
    Nat.toDigitsCore 10 (fuel + 1) n ds = Nat.digitChar (n % 10) :: ds := by
  simp [Nat.toDigitsCore, h]

theorem digitChar_mod_isDigit (m : Nat) :
    (Nat.digitChar (m % 10)).isDigit = true := by
  have h : m % 10 < 10 := Nat.mod_lt _ (by omega)
  revert h
  have : ∀ k, k < 10 → (Nat.digitChar k).isDigit = true := by decide
  exact this (m % 10)

theorem repr_data_two (n : Nat) (h1 : 10 ≤ n) (h2 : n < 100) :
    (Nat.repr n).data =
      [Nat.digitChar (n / 10 % 10), Nat.digitChar (n % 10)] := by
  obtain ⟨f, hf⟩ : ∃ f, n + 1 = f + 2 := ⟨n - 1, by omega⟩
  rw [Nat.repr, Nat.toDigits, hf,
    show f + 2 = (f + 1) + 1 from rfl,
    toDigitsCore_step (f + 1) n [] (by omega),
    toDigitsCore_stop f (n / 10) _ (by omega)]
  rfl

theorem repr_data_one (n : Nat) (h : n < 10) :
    (Nat.repr n).data = [Nat.digitChar (n % 10)] := by
  rw [Nat.repr, Nat.toDigits, toDigitsCore_stop n n [] (by omega)]
  rfl

theorem repr_data_four (n : Nat) (h1 : 1000 ≤ n) (h2 : n < 10000) :
    (Nat.repr n).data =
      [Nat.digitChar (n / 10 / 10 / 10 % 10), Nat.digitChar (n / 10 / 10 % 10),
       Nat.digitChar (n / 10 % 10), Nat.digitChar (n % 10)] := by
  obtain ⟨f, hf⟩ : ∃ f, n + 1 = f + 4 := ⟨n - 3, by omega⟩
  rw [Nat.repr, Nat.toDigits, hf,
    show f + 4 = ((f + 2) + 1) + 1 from rfl,
    toDigitsCore_step ((f + 2) + 1) n [] (by omega),
    toDigitsCore_step (f + 2) (n / 10) _ (by omega),
    show f + 2 = (f + 1) + 1 from rfl,
    toDigitsCore_step (f + 1) (n / 10 / 10) _ (by omega),
    toDigitsCore_stop f (n / 10 / 10 / 10) _ (by omega)]
  rfl

theorem pad2_data (n : Nat) (h : n < 100) :
    (pad2 n).data =
      if n < 10 then ['0', Nat.digitChar (n % 10)]
      else [Nat.digitChar (n / 10 % 10), Nat.digitChar (n % 10)] := by
  unfold pad2
  by_cases h10 : n < 10
  · rw [if_pos h10, if_pos h10, toString_nat_eq_repr, String.data_append,
      repr_data_one n h10]
    rfl
  · rw [if_neg h10, if_neg h10, toString_nat_eq_repr,
      repr_data_two n (by omega) h]

theorem pad2_digits (n : Nat) (h : n < 100) :
    ∃ a b, (pad2 n).data = [a, b] ∧ a.isDigit = true ∧ b.isDigit = true := by
  rw [pad2_data n h]
  by_cases h10 : n < 10
  · exact ⟨'0', Nat.digitChar (n % 10), by rw [if_pos h10], by decide,
      digitChar_mod_isDigit n⟩
  · exact ⟨Nat.digitChar (n / 10 % 10), Nat.digitChar (n % 10),
      by rw [if_neg h10], digitChar_mod_isDigit (n / 10),
      digitChar_mod_isDigit n⟩

theorem strftime_shape (dt : DateTime) (hy1 : 1000 ≤ dt.year)
    (hy2 : dt.year < 10000) (hm : dt.month < 100) (hd : dt.day < 100)
    (hh : dt.hour < 100) (hmi : dt.minute < 100) (hs : dt.second < 100) :
    isTimestampShape (strftimeTimestamp dt) = true := by
  obtain ⟨a1, a2, hma, ha1, ha2⟩ := pad2_digits dt.month hm
  obtain ⟨b1, b2, hdb, hb1, hb2⟩ := pad2_digits dt.day hd
  obtain ⟨c1, c2, hhc, hc1, hc2⟩ := pad2_digits dt.hour hh
  obtain ⟨d1, d2, hmd, hd1, hd2⟩ := pad2_digits dt.minute hmi
  obtain ⟨e1, e2, hse, he1, he2⟩ := pad2_digits dt.second hs
  have hlist : (strftimeTimestamp dt).data =
      [Nat.digitChar (dt.year / 10 / 10 / 10 % 10),
       Nat.digitChar (dt.year / 10 / 10 % 10),
       Nat.digitChar (dt.year / 10 % 10), Nat.digitChar (dt.year % 10),
       '-', a1, a2, '-', b1, b2, ' ', c1, c2, ':', d1, d2, ':', e1, e2] := by
    simp only [strftimeTimestamp, String.data_append, toString_nat_eq_repr,
      repr_data_four dt.year hy1 hy2, hma, hdb, hhc, hmd, hse,
      show ("-" : String).data = ['-'] from rfl,
      show (" " : String).data = [' '] from rfl,
      show (":" : String).data = [':'] from rfl]
    rfl
  simp only [isTimestampShape, String.toList, hlist]
  simp [digitChar_mod_isDigit, ha1, ha2, hb1, hb2, hc1, hc2, hd1, hd2, he1, he2]

theorem SMap.upsert_upsert_same {α : Type} (m : SMap α) (k : String)
    (v w : α) : SMap.upsert (SMap.upsert m k v) k w = SMap.upsert m k w := by
  induction m with
  | nil => simp [SMap.upsert]
  | cons kv rest ih =>
      obtain ⟨k0, v0⟩ := kv
      by_cases h : k0 = k <;> simp [SMap.upsert, h, ih]

/-- Characterization of `save_meal_plan` on a logged-in state: the
record is written under the username into the in-memory history (the
explicit empty-dict initialisation for a first-time user collapses into
a single `upsert`), the full new history is handed to `save_history`,
and the fresh id is returned. -/
theorem save_meal_plan_eq (pid : String) (now : DateTime) (writeError : Option String)
    (mp : String) (prefs : Preferences) (disk : Storage) (s : SessionState)
    (u : String) (hu : s.username = some u) :
    save_meal_plan pid now writeError mp prefs disk s =
      (⟨s.authenticated, s.username,
        SMap.upsert s.history u
          (SMap.upsert ((SMap.find? s.history u).getD []) pid
            ⟨strftimeTimestamp now, prefs, mp⟩),
        s.current_view, s.current_plan⟩,
       (save_history writeError
          (SMap.upsert s.history u
            (SMap.upsert ((SMap.find? s.history u).getD []) pid
              ⟨strftimeTimestamp now, prefs, mp⟩)) disk).1,
       (save_history writeError
          (SMap.upsert s.history u
            (SMap.upsert ((SMap.find? s.history u).getD []) pid
              ⟨strftimeTimestamp now, prefs, mp⟩)) disk).2,
       pid) := by
  unfold save_meal_plan
  rw [hu]
  by_cases hp : (SMap.find? s.history u).isSome
  · obtain ⟨uh, huh⟩ := Option.isSome_iff_exists.mp hp
    simp [huh]
  · have hnone : SMap.find? s.history u = none :=
      Option.not_isSome_iff_eq_none.mp hp
    simp [hnone, SMap.find?_upsert_self, SMap.upsert_upsert_same]

/-- Characterization of the save action when a current plan exists. -/
theorem save_current_plan_eq (pid : String) (now : DateTime)
    (writeError : Option String) (disk : Storage) (s : SessionState) (u : String)
    (cp : CurrentPlan) (hu : s.username = some u)
    (hcp : s.current_plan = some cp) :
    save_current_plan pid now writeError disk s =
      (⟨s.authenticated, s.username,
        SMap.upsert s.history u
          (SMap.upsert ((SMap.find? s.history u).getD []) pid
            ⟨strftimeTimestamp now, cp.preferences, cp.meal_plan⟩),
        s.current_view, s.current_plan⟩,
       (save_history writeError
          (SMap.upsert s.history u
            (SMap.upsert ((SMap.find? s.history u).getD []) pid
              ⟨strftimeTimestamp now, cp.preferences, cp.meal_plan⟩)) disk).1,
       (save_history writeError
          (SMap.upsert s.history u
            (SMap.upsert ((SMap.find? s.history u).getD []) pid
              ⟨strftimeTimestamp now, cp.preferences, cp.meal_plan⟩)) disk).2,
       some pid) := by
  unfold save_current_plan
  simp only [hcp]
  rw [save_meal_plan_eq pid now writeError cp.meal_plan cp.preferences disk s u hu]
  rw [hcp]

/-! Claim theorems. -/

/-- Claim C1: saving a well-formed history and then loading returns a
mapping equal to the one saved, with no error reported, when the write
succeeds (`writeError = true`) and the read succeeds (the file is present
and parses): the serialization of the defined shape is lossless. -/
theorem C1_save_load_round_trip (h : History) (disk : Storage) :
    load_history (save_history none h disk).1 = (h, []) := by
  simp [save_history, load_history, decodeHistory_encodeHistory]

/-- Claim C3: login succeeds iff the username is a key of the static
credential table whose stored password equals the given one (exact
case-sensitive string equality); on success it sets the authenticated
flag, the username and the meal-planner view and replaces the in-memory
history with the loaded file; on failure the session state is
unchanged. -/
theorem C3_login_spec (u p : String) (disk : Storage) (s : SessionState) :
    ((login u p disk s).2 = true ↔ SMap.find? USERS u = some p) ∧
    ((login u p disk s).2 = true →
      (login u p disk s).1 =
        { s with authenticated := true
                 username := some u
                 current_view := View.meal_planner
                 history := (load_history disk).1 }) ∧
    ((login u p disk s).2 = false → (login u p disk s).1 = s) := by
  unfold login
  by_cases h : SMap.find? USERS u = some p <;> simp [h]

/-- Claim C4: the meal-plan generator is a total function into strings:
with a missing API key it returns the fixed configuration-error string
and performs zero service calls, and when the service call raises it
catches the exception and returns the descriptive error string built
from it. -/
theorem C4_generate_meal_plan_errors (cfg : Except String Unit)
    (call : String → Except String String) (g d : Bool) (info : String) :
    (generate_meal_plan none cfg call g d info =
      ("Error: Unable to configure Gemini API", 0)) ∧
    (∀ k e, isTruthyKey k = true → cfg = Except.ok () →
      call (build_prompt g d info) = Except.error e →
      generate_meal_plan k cfg call g d info =
        ("Error generating meal plan: " ++ e, 1)) := by
  constructor
  · simp [generate_meal_plan, configure_gemini, isTruthyKey]
  · intro k e hk hcfg hcall
    subst hcfg
    simp [generate_meal_plan, configure_gemini, hk, hcall]

/-- Witness for C4 at a concrete key, configuration and failing call. -/
theorem C4_generate_meal_plan_errors_witness :
    generate_meal_plan (some "key") (Except.ok ())
        (fun _ => Except.error "boom") true false "info" =
      ("Error generating meal plan: " ++ "boom", 1) :=
  (C4_generate_meal_plan_errors (Except.ok ())
      (fun _ => Except.error "boom") true false "info").2
    (some "key") "boom" (by decide) rfl rfl

/-- Claim C5: the prompt embeds the free-text field verbatim between
fixed template pieces, and the restriction phrase is the fixed
no-restrictions phrase when both flags are false and otherwise the
comma-joined list naming exactly the true flags. -/
theorem C5_prompt_spec (g d : Bool) (info : String) :
    build_prompt g d info =
      promptHead ++ constraints_text g d ++ promptMid ++ info ++ promptTail ∧
    constraints_text false false = "No specific dietary restrictions" ∧
    constraints_text true false = "gluten-free" ∧
    constraints_text false true = "dairy-free" ∧
    constraints_text true true = "gluten-free, dairy-free" :=
  ⟨rfl, rfl, rfl, rfl, rfl⟩

/-- Claim C6, counterexample: `logout` does not return every session
field to its default — on a state with a saved history and a current
plan, both survive the logout call, so the state after logout differs
from the default state. -/
theorem C6_logout_counterexample :
    ¬ (logout
        { authenticated := true
          username := some "Zach"
          history := [("Zach",
            [("id0", ⟨"2024-01-01 00:00:00", ⟨true, false, "x"⟩, "plan"⟩)])]
          current_view := View.meal_planner
          current_plan := some ⟨none, ⟨true, false, "x"⟩, "plan"⟩ } =
      initialState) := by
  decide

/-- Claim C6 (amended): `logout` resets `authenticated` to false, the
username to none and the view to login, but leaves the in-memory
history and the current plan untouched. -/
theorem C6_logout_amended (s : SessionState) :
    (logout s).authenticated = false ∧ (logout s).username = none ∧
    (logout s).current_view = View.login ∧
    (logout s).history = s.history ∧
    (logout s).current_plan = s.current_plan :=
  ⟨rfl, rfl, rfl, rfl, rfl⟩

/-- Claim C9: loading returns the empty mapping when the file is absent;
with a malformed file it reports exactly one non-fatal error message and
still returns the empty mapping, salvaging no partial data; being a
total Lean function it raises nothing. -/
theorem C9_load_history_errors :
    load_history none = ([], []) ∧
    ∀ e, load_history (some (Except.error e)) =
      ([], ["Error loading history: " ++ e]) :=
  ⟨rfl, fun _ => rfl⟩

/-- Witness for C3 at the hard-coded credentials of the first user. -/
theorem C3_login_spec_witness :
    (login "Zach" "ZML" none initialState).1 =
      { initialState with
          authenticated := true
          username := some "Zach"
          current_view := View.meal_planner
          history := (load_history none).1 } :=
  (C3_login_spec "Zach" "ZML" none initialState).2.1 (by decide)

/-- Claim C2: with a non-null current plan, the save action stores the
record built from the fresh id, the formatted (shape-correct) current
clock reading and the fields of the current plan into the in-memory
history under the current username, hands the full new history to
`save_history`, and returns the new plan id; with no current plan
nothing happens and no id is produced. -/
theorem C2_save_current_plan_spec (pid : String) (now : DateTime)
    (writeError : Option String) (disk : Storage) (s : SessionState) :
    (s.current_plan = none →
      save_current_plan pid now writeError disk s = (s, disk, [], none)) ∧
    (∀ u cp, s.username = some u → s.current_plan = some cp →
      1000 ≤ now.year → now.year < 10000 → now.month < 100 →
      now.day < 100 → now.hour < 100 → now.minute < 100 →
      now.second < 100 →
      ∃ uh,
        SMap.find? (save_current_plan pid now writeError disk s).1.history u =
          some uh ∧
        SMap.find? uh pid =
          some ⟨strftimeTimestamp now, cp.preferences, cp.meal_plan⟩ ∧
        isTimestampShape (strftimeTimestamp now) = true ∧
        (save_current_plan pid now writeError disk s).2.1 =
          (save_history writeError
            (save_current_plan pid now writeError disk s).1.history disk).1 ∧
        (save_current_plan pid now writeError disk s).2.2.1 =
          (save_history writeError
            (save_current_plan pid now writeError disk s).1.history disk).2 ∧
        (save_current_plan pid now writeError disk s).2.2.2 = some pid) := by
  constructor
  · intro h
    unfold save_current_plan
    simp only [h]
  · intro u cp hu hcp hy1 hy2 hm hd hh hmi hsec
    rw [save_current_plan_eq pid now writeError disk s u cp hu hcp]
    dsimp only
    exact ⟨SMap.upsert ((SMap.find? s.history u).getD []) pid
        ⟨strftimeTimestamp now, cp.preferences, cp.meal_plan⟩,
      SMap.find?_upsert_self _ _ _,
      SMap.find?_upsert_self _ _ _,
      strftime_shape now hy1 hy2 hm hd hh hmi hsec,
      rfl, rfl, rfl⟩

/-- Witness for C2 at a concrete clock reading, id and logged-in state. -/
theorem C2_save_current_plan_spec_witness :
    ∃ uh,
      SMap.find? (save_current_plan "id1" ⟨2025, 3, 7, 9, 5, 30⟩ none none
          ⟨true, some "Zach", [], View.meal_planner,
           some ⟨none, ⟨true, false, "hi"⟩, "PLAN"⟩⟩).1.history "Zach" =
        some uh ∧
      SMap.find? uh "id1" =
        some ⟨strftimeTimestamp ⟨2025, 3, 7, 9, 5, 30⟩,
          ⟨true, false, "hi"⟩, "PLAN"⟩ ∧
      isTimestampShape (strftimeTimestamp ⟨2025, 3, 7, 9, 5, 30⟩) = true ∧
      (save_current_plan "id1" ⟨2025, 3, 7, 9, 5, 30⟩ none none
          ⟨true, some "Zach", [], View.meal_planner,
           some ⟨none, ⟨true, false, "hi"⟩, "PLAN"⟩⟩).2.1 =
        (save_history none
          (save_current_plan "id1" ⟨2025, 3, 7, 9, 5, 30⟩ none none
            ⟨true, some "Zach", [], View.meal_planner,
             some ⟨none, ⟨true, false, "hi"⟩, "PLAN"⟩⟩).1.history none).1 ∧
      (save_current_plan "id1" ⟨2025, 3, 7, 9, 5, 30⟩ none none
          ⟨true, some "Zach", [], View.meal_planner,
           some ⟨none, ⟨true, false, "hi"⟩, "PLAN"⟩⟩).2.2.1 =
        (save_history none
          (save_current_plan "id1" ⟨2025, 3, 7, 9, 5, 30⟩ none none
            ⟨true, some "Zach", [], View.meal_planner,
             some ⟨none, ⟨true, false, "hi"⟩, "PLAN"⟩⟩).1.history none).2 ∧
      (save_current_plan "id1" ⟨2025, 3, 7, 9, 5, 30⟩ none none
          ⟨true, some "Zach", [], View.meal_planner,
           some ⟨none, ⟨true, false, "hi"⟩, "PLAN"⟩⟩).2.2.2 = some "id1" :=
  (C2_save_current_plan_spec "id1" ⟨2025, 3, 7, 9, 5, 30⟩ none none
      ⟨true, some "Zach", [], View.meal_planner,
       some ⟨none, ⟨true, false, "hi"⟩, "PLAN"⟩⟩).2
    "Zach" ⟨none, ⟨true, false, "hi"⟩, "PLAN"⟩ rfl rfl
    (by decide) (by decide) (by decide) (by decide) (by decide)
    (by decide) (by decide)

/-- Claim C7: selecting a plan id that is present in the history of the
current user sets the current plan to the stored record and the view to
`view_plan`; a plan id with no entry (or a user with no history record
at all) is a silent no-op that leaves the whole session state, in
particular the view, unchanged. -/
theorem C7_select_plan_spec (pid : String) (s : SessionState) (u : String)
    (hu : s.username = some u) :
    (∀ uh r, SMap.find? s.history u = some uh →
       SMap.find? uh pid = some r →
       select_plan pid s =
         ⟨s.authenticated, s.username, s.history, View.view_plan,
          some r.toCurrentPlan⟩) ∧
    ((SMap.find? s.history u).bind (fun uh => SMap.find? uh pid) = none →
       select_plan pid s = s) := by
  constructor
  · intro uh r h1 h2
    unfold select_plan
    simp only [hu, h1, h2]
  · intro h
    unfold select_plan
    simp only [hu]
    cases h1 : SMap.find? s.history u with
    | none => rfl
    | some uh =>
        rw [h1, Option.some_bind] at h
        simp only [h]

/-- Witness for C7: both the hit and the miss case at concrete states. -/
theorem C7_select_plan_spec_witness :
    select_plan "id0"
        ⟨true, some "Zach",
         [("Zach", [("id0", ⟨"2024-01-01 00:00:00", ⟨true, false, "x"⟩,
            "PLAN"⟩)])],
         View.history, none⟩ =
      ⟨true, some "Zach",
       [("Zach", [("id0", ⟨"2024-01-01 00:00:00", ⟨true, false, "x"⟩,
          "PLAN"⟩)])],
       View.view_plan,
       some ⟨some "2024-01-01 00:00:00", ⟨true, false, "x"⟩, "PLAN"⟩⟩ ∧
    select_plan "missing"
        ⟨true, some "Zach",
         [("Zach", [("id0", ⟨"2024-01-01 00:00:00", ⟨true, false, "x"⟩,
            "PLAN"⟩)])],
         View.history, none⟩ =
      ⟨true, some "Zach",
       [("Zach", [("id0", ⟨"2024-01-01 00:00:00", ⟨true, false, "x"⟩,
          "PLAN"⟩)])],
       View.history, none⟩ :=
  ⟨(C7_select_plan_spec "id0"
      ⟨true, some "Zach",
       [("Zach", [("id0", ⟨"2024-01-01 00:00:00", ⟨true, false, "x"⟩,
          "PLAN"⟩)])],
       View.history, none⟩ "Zach" rfl).1
      [("id0", ⟨"2024-01-01 00:00:00", ⟨true, false, "x"⟩, "PLAN"⟩)]
      ⟨"2024-01-01 00:00:00", ⟨true, false, "x"⟩, "PLAN"⟩ (by decide)
      (by decide),
   (C7_select_plan_spec "missing"
      ⟨true, some "Zach",
       [("Zach", [("id0", ⟨"2024-01-01 00:00:00", ⟨true, false, "x"⟩,
          "PLAN"⟩)])],
       View.history, none⟩ "Zach" rfl).2 (by decide)⟩

/-- Claim C10: with an unwriteError store, `save_meal_plan` still inserts
the record into the in-memory history and still returns the new plan id;
the write failure only reports an error message and leaves the file
unchanged — the resulting session state is identical to the one a
successful write produces. -/
theorem C10_save_failure_no_rollback (pid : String) (now : DateTime)
    (mp : String) (prefs : Preferences) (disk : Storage) (s : SessionState)
    (u : String) (hu : s.username = some u) :
    (save_meal_plan pid now (some "no space") mp prefs disk s).2.2.2 = pid ∧
    (∃ uh,
      SMap.find? (save_meal_plan pid now (some "no space") mp prefs disk s).1.history u =
        some uh ∧
      SMap.find? uh pid = some ⟨strftimeTimestamp now, prefs, mp⟩) ∧
    (save_meal_plan pid now (some "no space") mp prefs disk s).2.1 = disk ∧
    (save_meal_plan pid now (some "no space") mp prefs disk s).2.2.1 =
      ["Error saving history: " ++ "no space"] ∧
    (save_meal_plan pid now (some "no space") mp prefs disk s).1 =
      (save_meal_plan pid now none mp prefs disk s).1 := by
  rw [save_meal_plan_eq pid now (some "no space") mp prefs disk s u hu,
    save_meal_plan_eq pid now none mp prefs disk s u hu]
  dsimp only
  refine ⟨rfl,
    ⟨SMap.upsert ((SMap.find? s.history u).getD []) pid
        ⟨strftimeTimestamp now, prefs, mp⟩,
      SMap.find?_upsert_self _ _ _, SMap.find?_upsert_self _ _ _⟩,
    ?_, ?_, rfl⟩
  · simp [save_history]
  · simp [save_history]

/-- Witness for C10 at a concrete failing save. -/
theorem C10_save_failure_no_rollback_witness :
    (save_meal_plan "id1" ⟨2025, 3, 7, 9, 5, 30⟩ (some "no space") "PLAN"
        ⟨true, false, "hi"⟩ none
        ⟨true, some "Zach", [], View.meal_planner, none⟩).2.2.2 = "id1" ∧
    (∃ uh,
      SMap.find? (save_meal_plan "id1" ⟨2025, 3, 7, 9, 5, 30⟩ (some "no space") "PLAN"
          ⟨true, false, "hi"⟩ none
          ⟨true, some "Zach", [], View.meal_planner, none⟩).1.history
        "Zach" = some uh ∧
      SMap.find? uh "id1" =
        some ⟨strftimeTimestamp ⟨2025, 3, 7, 9, 5, 30⟩,
          ⟨true, false, "hi"⟩, "PLAN"⟩) ∧
    (save_meal_plan "id1" ⟨2025, 3, 7, 9, 5, 30⟩ (some "no space") "PLAN"
        ⟨true, false, "hi"⟩ none
        ⟨true, some "Zach", [], View.meal_planner, none⟩).2.1 = none ∧
    (save_meal_plan "id1" ⟨2025, 3, 7, 9, 5, 30⟩ (some "no space") "PLAN"
        ⟨true, false, "hi"⟩ none
        ⟨true, some "Zach", [], View.meal_planner, none⟩).2.2.1 =
      ["Error saving history: " ++ "no space"] ∧
    (save_meal_plan "id1" ⟨2025, 3, 7, 9, 5, 30⟩ (some "no space") "PLAN"
        ⟨true, false, "hi"⟩ none
        ⟨true, some "Zach", [], View.meal_planner, none⟩).1 =
      (save_meal_plan "id1" ⟨2025, 3, 7, 9, 5, 30⟩ none "PLAN"
        ⟨true, false, "hi"⟩ none
        ⟨true, some "Zach", [], View.meal_planner, none⟩).1 :=
  C10_save_failure_no_rollback "id1" ⟨2025, 3, 7, 9, 5, 30⟩ "PLAN"
    ⟨true, false, "hi"⟩ none
    ⟨true, some "Zach", [], View.meal_planner, none⟩ "Zach" rfl

/-- Helper: the plan-selection action on a present id. -/
theorem select_plan_found (pid : String) (s : SessionState) (u : String)
    (uh : UserHistory) (r : PlanRecord) (hu : s.username = some u)
    (h1 : SMap.find? s.history u = some uh)
    (h2 : SMap.find? uh pid = some r) :
    select_plan pid s =
      ⟨s.authenticated, s.username, s.history, View.view_plan,
       some r.toCurrentPlan⟩ := by
  unfold select_plan
  simp only [hu, h1, h2]

/-- Claim C8: saving the same unsaved current plan twice under two fresh
distinct ids returns both ids, stores two records retrievable through
the plan-selection action, keeps the ids of the per-user history
pairwise distinct, and modifies no previously saved record. -/
theorem C8_save_twice_distinct (pid1 pid2 : String) (t1 t2 : DateTime)
    (w1 w2 : Option String) (d0 : Storage) (s : SessionState) (u : String)
    (cp : CurrentPlan) (hu : s.username = some u)
    (hcp : s.current_plan = some cp) (hne : pid1 ≠ pid2)
    (hf1 : SMap.find? ((SMap.find? s.history u).getD []) pid1 = none)
    (hf2 : SMap.find? ((SMap.find? s.history u).getD []) pid2 = none)
    (hnd : ((SMap.find? s.history u).getD []).keys.Nodup) :
    (save_current_plan pid1 t1 w1 d0 s).2.2.2 = some pid1 ∧
    (save_current_plan pid2 t2 w2 (save_current_plan pid1 t1 w1 d0 s).2.1
        (save_current_plan pid1 t1 w1 d0 s).1).2.2.2 = some pid2 ∧
    ∃ uh2,
      SMap.find? ((save_current_plan pid2 t2 w2
          (save_current_plan pid1 t1 w1 d0 s).2.1
          (save_current_plan pid1 t1 w1 d0 s).1).1).history u = some uh2 ∧
      SMap.find? uh2 pid1 =
        some ⟨strftimeTimestamp t1, cp.preferences, cp.meal_plan⟩ ∧
      SMap.find? uh2 pid2 =
        some ⟨strftimeTimestamp t2, cp.preferences, cp.meal_plan⟩ ∧
      uh2.keys.Nodup ∧
      (∀ q r, SMap.find? ((SMap.find? s.history u).getD []) q = some r →
         SMap.find? uh2 q = some r) ∧
      select_plan pid1 (save_current_plan pid2 t2 w2
          (save_current_plan pid1 t1 w1 d0 s).2.1
          (save_current_plan pid1 t1 w1 d0 s).1).1 =
        ⟨s.authenticated, s.username,
         ((save_current_plan pid2 t2 w2
            (save_current_plan pid1 t1 w1 d0 s).2.1
            (save_current_plan pid1 t1 w1 d0 s).1).1).history,
         View.view_plan,
         some ⟨some (strftimeTimestamp t1), cp.preferences, cp.meal_plan⟩⟩ ∧
      select_plan pid2 (save_current_plan pid2 t2 w2
          (save_current_plan pid1 t1 w1 d0 s).2.1
          (save_current_plan pid1 t1 w1 d0 s).1).1 =
        ⟨s.authenticated, s.username,
         ((save_current_plan pid2 t2 w2
            (save_current_plan pid1 t1 w1 d0 s).2.1
            (save_current_plan pid1 t1 w1 d0 s).1).1).history,
         View.view_plan,
         some ⟨some (strftimeTimestamp t2), cp.preferences, cp.meal_plan⟩⟩ := by
  rw [save_current_plan_eq pid1 t1 w1 d0 s u cp hu hcp]
  dsimp only
  rw [save_current_plan_eq pid2 t2 w2
    ((save_history w1 (SMap.upsert s.history u
       (SMap.upsert ((SMap.find? s.history u).getD []) pid1
         ⟨strftimeTimestamp t1, cp.preferences, cp.meal_plan⟩)) d0).1)
    ⟨s.authenticated, s.username,
     SMap.upsert s.history u
       (SMap.upsert ((SMap.find? s.history u).getD []) pid1
         ⟨strftimeTimestamp t1, cp.preferences, cp.meal_plan⟩),
     s.current_view, s.current_plan⟩ u cp hu hcp]
  dsimp only
  rw [SMap.find?_upsert_self s.history u, Option.getD_some]
  have hfind1 :
      SMap.find? (SMap.upsert (SMap.upsert ((SMap.find? s.history u).getD [])
          pid1 ⟨strftimeTimestamp t1, cp.preferences, cp.meal_plan⟩) pid2
          ⟨strftimeTimestamp t2, cp.preferences, cp.meal_plan⟩) pid1 =
        some ⟨strftimeTimestamp t1, cp.preferences, cp.meal_plan⟩ := by
    rw [SMap.find?_upsert_ne _ _ _ _ hne]
    exact SMap.find?_upsert_self _ _ _
  have hfind2 :
      SMap.find? (SMap.upsert (SMap.upsert ((SMap.find? s.history u).getD [])
          pid1 ⟨strftimeTimestamp t1, cp.preferences, cp.meal_plan⟩) pid2
          ⟨strftimeTimestamp t2, cp.preferences, cp.meal_plan⟩) pid2 =
        some ⟨strftimeTimestamp t2, cp.preferences, cp.meal_plan⟩ :=
    SMap.find?_upsert_self _ _ _
  refine ⟨rfl, rfl, _, SMap.find?_upsert_self _ _ _, hfind1, hfind2,
    SMap.keys_nodup_upsert _ _ _ (SMap.keys_nodup_upsert _ _ _ hnd),
    ?_, ?_, ?_⟩
  · intro q r hq
    have hq1 : q ≠ pid1 := by
      intro e
      rw [e, hf1] at hq
      exact Option.noConfusion hq
    have hq2 : q ≠ pid2 := by
      intro e
      rw [e, hf2] at hq
      exact Option.noConfusion hq
    rw [SMap.find?_upsert_ne _ _ _ _ hq2, SMap.find?_upsert_ne _ _ _ _ hq1]
    exact hq
  · exact select_plan_found pid1
      ⟨s.authenticated, s.username,
       SMap.upsert (SMap.upsert s.history u
         (SMap.upsert ((SMap.find? s.history u).getD []) pid1
           ⟨strftimeTimestamp t1, cp.preferences, cp.meal_plan⟩)) u
         (SMap.upsert (SMap.upsert ((SMap.find? s.history u).getD []) pid1
             ⟨strftimeTimestamp t1, cp.preferences, cp.meal_plan⟩) pid2
           ⟨strftimeTimestamp t2, cp.preferences, cp.meal_plan⟩),
       s.current_view, s.current_plan⟩ u _ _
      hu (SMap.find?_upsert_self _ _ _) hfind1
  · exact select_plan_found pid2
      ⟨s.authenticated, s.username,
       SMap.upsert (SMap.upsert s.history u
         (SMap.upsert ((SMap.find? s.history u).getD []) pid1
           ⟨strftimeTimestamp t1, cp.preferences, cp.meal_plan⟩)) u
         (SMap.upsert (SMap.upsert ((SMap.find? s.history u).getD []) pid1
             ⟨strftimeTimestamp t1, cp.preferences, cp.meal_plan⟩) pid2
           ⟨strftimeTimestamp t2, cp.preferences, cp.meal_plan⟩),
       s.current_view, s.current_plan⟩ u _ _
      hu (SMap.find?_upsert_self _ _ _) hfind2

/-- Witness for C8: two concrete saves of the same plan under distinct
fresh ids. -/
theorem C8_save_twice_distinct_witness :
    (save_current_plan "a" ⟨2025, 1, 2, 3, 4, 5⟩ none none ⟨true, some "Zach", [], View.meal_planner,
           some ⟨none, ⟨true, false, "hi"⟩, "PLAN"⟩⟩).2.2.2 = some "a" ∧
    (save_current_plan "b" ⟨2025, 1, 2, 3, 4, 6⟩ none (save_current_plan "a" ⟨2025, 1, 2, 3, 4, 5⟩ none none ⟨true, some "Zach", [], View.meal_planner,
           some ⟨none, ⟨true, false, "hi"⟩, "PLAN"⟩⟩).2.1
        (save_current_plan "a" ⟨2025, 1, 2, 3, 4, 5⟩ none none ⟨true, some "Zach", [], View.meal_planner,
           some ⟨none, ⟨true, false, "hi"⟩, "PLAN"⟩⟩).1).2.2.2 = some "b" ∧
    ∃ uh2,
      SMap.find? ((save_current_plan "b" ⟨2025, 1, 2, 3, 4, 6⟩ none
          (save_current_plan "a" ⟨2025, 1, 2, 3, 4, 5⟩ none none ⟨true, some "Zach", [], View.meal_planner,
           some ⟨none, ⟨true, false, "hi"⟩, "PLAN"⟩⟩).2.1
          (save_current_plan "a" ⟨2025, 1, 2, 3, 4, 5⟩ none none ⟨true, some "Zach", [], View.meal_planner,
           some ⟨none, ⟨true, false, "hi"⟩, "PLAN"⟩⟩).1).1).history "Zach" = some uh2 ∧
      SMap.find? uh2 "a" =
        some ⟨strftimeTimestamp ⟨2025, 1, 2, 3, 4, 5⟩, ⟨true, false, "hi"⟩, "PLAN"⟩ ∧
      SMap.find? uh2 "b" =
        some ⟨strftimeTimestamp ⟨2025, 1, 2, 3, 4, 6⟩, ⟨true, false, "hi"⟩, "PLAN"⟩ ∧
      uh2.keys.Nodup ∧
      (∀ q r, SMap.find? ((SMap.find? ([] : History) "Zach").getD []) q = some r →
         SMap.find? uh2 q = some r) ∧
      select_plan "a" (save_current_plan "b" ⟨2025, 1, 2, 3, 4, 6⟩ none
          (save_current_plan "a" ⟨2025, 1, 2, 3, 4, 5⟩ none none ⟨true, some "Zach", [], View.meal_planner,
           some ⟨none, ⟨true, false, "hi"⟩, "PLAN"⟩⟩).2.1
          (save_current_plan "a" ⟨2025, 1, 2, 3, 4, 5⟩ none none ⟨true, some "Zach", [], View.meal_planner,
           some ⟨none, ⟨true, false, "hi"⟩, "PLAN"⟩⟩).1).1 =
        ⟨true, some "Zach",
         ((save_current_plan "b" ⟨2025, 1, 2, 3, 4, 6⟩ none
            (save_current_plan "a" ⟨2025, 1, 2, 3, 4, 5⟩ none none ⟨true, some "Zach", [], View.meal_planner,
           some ⟨none, ⟨true, false, "hi"⟩, "PLAN"⟩⟩).2.1
            (save_current_plan "a" ⟨2025, 1, 2, 3, 4, 5⟩ none none ⟨true, some "Zach", [], View.meal_planner,
           some ⟨none, ⟨true, false, "hi"⟩, "PLAN"⟩⟩).1).1).history,
         View.view_plan,
         some ⟨some (strftimeTimestamp ⟨2025, 1, 2, 3, 4, 5⟩), ⟨true, false, "hi"⟩, "PLAN"⟩⟩ ∧
      select_plan "b" (save_current_plan "b" ⟨2025, 1, 2, 3, 4, 6⟩ none
          (save_current_plan "a" ⟨2025, 1, 2, 3, 4, 5⟩ none none ⟨true, some "Zach", [], View.meal_planner,
           some ⟨none, ⟨true, false, "hi"⟩, "PLAN"⟩⟩).2.1
          (save_current_plan "a" ⟨2025, 1, 2, 3, 4, 5⟩ none none ⟨true, some "Zach", [], View.meal_planner,
           some ⟨none, ⟨true, false, "hi"⟩, "PLAN"⟩⟩).1).1 =
        ⟨true, some "Zach",
         ((save_current_plan "b" ⟨2025, 1, 2, 3, 4, 6⟩ none
            (save_current_plan "a" ⟨2025, 1, 2, 3, 4, 5⟩ none none ⟨true, some "Zach", [], View.meal_planner,
           some ⟨none, ⟨true, false, "hi"⟩, "PLAN"⟩⟩).2.1
            (save_current_plan "a" ⟨2025, 1, 2, 3, 4, 5⟩ none none ⟨true, some "Zach", [], View.meal_planner,
           some ⟨none, ⟨true, false, "hi"⟩, "PLAN"⟩⟩).1).1).history,
         View.view_plan,
         some ⟨some (strftimeTimestamp ⟨2025, 1, 2, 3, 4, 6⟩), ⟨true, false, "hi"⟩, "PLAN"⟩⟩ :=
  C8_save_twice_distinct "a" "b" ⟨2025, 1, 2, 3, 4, 5⟩ ⟨2025, 1, 2, 3, 4, 6⟩
    none none none
    ⟨true, some "Zach", [], View.meal_planner,
     some ⟨none, ⟨true, false, "hi"⟩, "PLAN"⟩⟩
    "Zach" ⟨none, ⟨true, false, "hi"⟩, "PLAN"⟩ rfl rfl (by decide) rfl rfl
    (by decide)

end Nutritionist
